import Mathlib

/-!
# Verification of the image-processing OCR API (`src/app.py`)

Shallow embedding of the Flask application in `app.py`: an HTTP service
that stores uploaded images in an upload folder (Blob Store), runs an
external OCR call (Gradio client, modelled as an oracle function that may
fail), and persists `ImageProcessing` rows in a SQLite table
(Record Store).

Modelling conventions:
  * Bytes are `List Nat`; the Blob Store (the `uploads` directory) is an
    association list from path to bytes.  `image_file.save(path)` writes
    immediately and durably (no overwrite protection), matching the code.
  * The Record Store is a list of `ImageRecord` rows plus the next
    autoincrement id.  An ORM attribute assignment is pending until
    `db.session.commit()`; if an exception escapes the view before the
    commit, Flask-SQLAlchemy's teardown rolls the session back, so the
    row keeps its previous values.  The handlers below therefore only
    write the record list at the point of `db.session.commit()`.
  * The OCR adapter `client.predict(...)` is a parameter
    `ocr : String → String → Option String` (image path, prompt ↦ text),
    `none` meaning the call raised (provider unreachable / rejected /
    timeout).  An exception escaping a view is rendered by Flask as a
    generic HTTP 500 HTML error page; `get_or_404` aborts with Flask's
    default HTML 404 page; `flask_jwt_extended` rejects a missing or
    invalid bearer token with a JSON 401 body.
  * `@jwt_required()` is modelled by a `tokenValid` flag on the request:
    the guarded handlers short-circuit with 401 when it is false.
    `delete_image` has no `@jwt_required()` decorator, so its handler
    ignores the flag.
-/

/-- Characters kept by werkzeug's `_filename_ascii_strip_re`:
`[A-Za-z0-9_.-]`. -/
def filenameKeepChar (c : Char) : Bool :=
  c.isAlphanum || c = '_' || c = '.' || c = '-'

/-- Is the character one stripped by `.strip("._")`? -/
def isDotOrUnderscore (c : Char) : Bool :=
  c = '.' || c = '_'

/-- Python `str.split()` with no argument: split on runs of whitespace,
returning no empty words.  The accumulator holds the current word
reversed. -/
def splitWordsAux : List Char → List Char → List (List Char)
  | [], cur => if cur.isEmpty then [] else [cur.reverse]
  | c :: rest, cur =>
      if c.isWhitespace then
        if cur.isEmpty then splitWordsAux rest []
        else cur.reverse :: splitWordsAux rest []
      else splitWordsAux rest (c :: cur)

/-- Python `.strip("._")`: drop leading and trailing `.` and `_`. -/
def stripDotUnderscore (l : List Char) : List Char :=
  ((l.dropWhile isDotOrUnderscore).reverse.dropWhile isDotOrUnderscore).reverse

/-- `werkzeug.utils.secure_filename`, modelled for ASCII inputs
(NFKD-normalisation followed by an ASCII encode with `ignore` drops
non-ASCII characters; on POSIX `os.sep = "/"` and `os.path.altsep` is
`None`): replace the path separator by a space, join the
whitespace-separated words with `_`, delete every character outside
`[A-Za-z0-9_.-]`, and strip leading/trailing `.` and `_`. -/
def secure_filename (filename : String) : String :=
  let ascii := filename.data.filter (fun c => c.toNat < 128)
  let sepReplaced := ascii.map (fun c => if c = '/' then ' ' else c)
  let joined := List.intercalate [Char.ofNat 95] (splitWordsAux sepReplaced [])
  String.mk (stripDotUnderscore (joined.filter filenameKeepChar))

/-- `os.path.join a b` on POSIX for a single join step. -/
def os_path_join (a b : String) : String :=
  if b.data.head? = some '/' then b
  else if a.data = [] ∨ a.data.getLast? = some '/' then String.mk (a.data ++ b.data)
  else String.mk (a.data ++ '/' :: b.data)

/-- `app.config['UPLOAD_FOLDER'] = 'uploads'`. -/
def UPLOAD_FOLDER : String := "uploads"

/-- Blob Store: the `uploads` directory as a finite map from path to
file bytes, represented as an association list without duplicate keys
(first binding wins, and `blobSet` keeps keys unique). -/
def BlobStore := List (String × List Nat)

/-- Write a file at a path (`image_file.save(image_path)`): silently
replaces prior content on a name collision. -/
def blobSet : List (String × List Nat) → String → List Nat → List (String × List Nat)
  | [], k, v => [(k, v)]
  | (k', v') :: rest, k, v =>
      if k' = k then (k, v) :: rest else (k', v') :: blobSet rest k v

/-- Read a file's bytes at a path, `none` if no such file. -/
def blobGet : List (String × List Nat) → String → Option (List Nat)
  | [], _ => none
  | (k', v') :: rest, k => if k' = k then some v' else blobGet rest k

/-- `if os.path.exists(p): os.remove(p)` — remove a path, tolerating an
already-absent file. -/
def blobRemove : List (String × List Nat) → String → List (String × List Nat)
  | [], _ => []
  | (k', v') :: rest, k =>
      if k' = k then blobRemove rest k else (k', v') :: blobRemove rest k

/-- The `ImageProcessing` row (`id`, `image_path`, `text_result`,
`created_at`).  `text_result` is nullable; timestamps are abstracted to
naturals. -/
structure ImageRecord where
  id : Nat
  image_path : String
  text_result : Option String
  created_at : Nat
deriving Repr, DecidableEq

/-- The JSON object produced by `ImageProcessing.to_dict`. -/
structure RecordDict where
  id : Nat
  image_path : String
  text_result : Option String
  created_at : Nat
deriving Repr, DecidableEq

/-- `ImageProcessing.to_dict`. -/
def ImageRecord.to_dict (r : ImageRecord) : RecordDict :=
  { id := r.id, image_path := r.image_path, text_result := r.text_result
    created_at := r.created_at }

/-- The persistent state: Blob Store (uploads directory), Record Store
(the `image_processing` table) and its autoincrement counter. -/
structure AppState where
  blobs : List (String × List Nat)
  records : List ImageRecord
  nextId : Nat
deriving Repr, DecidableEq

/-- `ImageProcessing.query.get(id)`: the row with the given primary key. -/
def AppState.findRecord (st : AppState) (id : Nat) : Option ImageRecord :=
  st.records.find? (fun r => r.id == id)

/-- Response bodies, at the granularity the API distinguishes: JSON
payloads of the several shapes the handlers produce, Flask's default
HTML error page (for `get_or_404` aborts and unhandled exceptions), and
the empty body of a 204. -/
inductive RespBody where
  | jsonRecord (d : RecordDict)
  | jsonList (l : List RecordDict)
  | jsonError (msg : String)
  | htmlError
  | empty
deriving Repr, DecidableEq

/-- Is the body a JSON document? -/
def RespBody.isJson : RespBody → Bool
  | jsonRecord _ => true
  | jsonList _ => true
  | jsonError _ => true
  | htmlError => false
  | empty => false

/-- An HTTP response: status code and body. -/
structure Response where
  status : Nat
  body : RespBody
deriving Repr, DecidableEq

/-- The 401 produced by `flask_jwt_extended` when the bearer token is
missing or invalid. -/
def jwtReject : Response :=
  { status := 401, body := .jsonError "Missing Authorization Header" }

/-- A create request: validity of the bearer token, the optional
`image` part of `request.files` (filename and bytes), and the optional
`prompt` field of `request.form`. -/
structure CreateRequest where
  tokenValid : Bool
  files_image : Option (String × List Nat)
  form_prompt : Option String
deriving Repr, DecidableEq

/-- An update request has the same shape as a create request. -/
structure UpdateRequest where
  tokenValid : Bool
  files_image : Option (String × List Nat)
  form_prompt : Option String
deriving Repr, DecidableEq

/-- `GET /api/images` (`get_images`): jwt-guarded; returns all rows
serialized by `to_dict`. -/
def get_images (tokenValid : Bool) (st : AppState) : Response × AppState :=
  if !tokenValid then (jwtReject, st)
  else ({ status := 200, body := .jsonList (st.records.map ImageRecord.to_dict) }, st)

/-- `POST /api/images` (`create_image`): jwt-guarded; 400 if no `image`
file part or empty filename; otherwise saves the blob at
`os.path.join(UPLOAD_FOLDER, secure_filename(filename))`, calls the OCR
adapter with that path and `request.form.get('prompt', '')`, and only
on adapter success inserts the new row and returns it with 201.  An
adapter exception escapes the view after the blob write: 500, row not
inserted. -/
def create_image (ocr : String → String → Option String) (now : Nat)
    (req : CreateRequest) (st : AppState) : Response × AppState :=
  if !req.tokenValid then (jwtReject, st)
  else
    match req.files_image with
    | none => ({ status := 400, body := .jsonError "No image provided" }, st)
    | some (fname, bytes) =>
        if fname = "" then
          ({ status := 400, body := .jsonError "No selected file" }, st)
        else
          let filename := secure_filename fname
          let image_path := os_path_join UPLOAD_FOLDER filename
          let st1 := { st with blobs := blobSet st.blobs image_path bytes }
          match ocr image_path (req.form_prompt.getD "") with
          | none => ({ status := 500, body := .htmlError }, st1)
          | some result =>
              let new_image : ImageRecord :=
                { id := st1.nextId, image_path := image_path
                  text_result := some result, created_at := now }
              ({ status := 201, body := .jsonRecord new_image.to_dict },
               { st1 with records := st1.records ++ [new_image]
                          nextId := st1.nextId + 1 })

/-- `GET /api/images/<id>` (`get_image`): jwt-guarded;
`query.get_or_404` aborts with Flask's HTML 404 page when the id is
absent; otherwise 200 with the row's `to_dict`. -/
def get_image (tokenValid : Bool) (id : Nat) (st : AppState) : Response × AppState :=
  if !tokenValid then (jwtReject, st)
  else
    match st.findRecord id with
    | none => ({ status := 404, body := .htmlError }, st)
    | some image => ({ status := 200, body := .jsonRecord image.to_dict }, st)

/-- `PUT /api/images/<id>` (`update_image`): jwt-guarded; 404 when the
id is absent.  If an `image` file part is present (no filename check
here), the new blob is saved immediately and the row's `image_path`
assignment becomes pending.  If a `prompt` form field is present, the
OCR adapter is called on the row's current (possibly just replaced)
`image_path`; on success the `text_result` assignment becomes pending.
`db.session.commit()` then makes the pending assignments durable; an
adapter exception skips the commit, so the pending assignments are
rolled back while the blob write persists. -/
def update_image (ocr : String → String → Option String) (id : Nat)
    (req : UpdateRequest) (st : AppState) : Response × AppState :=
  if !req.tokenValid then (jwtReject, st)
  else
    match st.findRecord id with
    | none => ({ status := 404, body := .htmlError }, st)
    | some image =>
        let step1 : List (String × List Nat) × ImageRecord :=
          match req.files_image with
          | none => (st.blobs, image)
          | some (fname, bytes) =>
              let image_path := os_path_join UPLOAD_FOLDER (secure_filename fname)
              (blobSet st.blobs image_path bytes, { image with image_path := image_path })
        let st1 := { st with blobs := step1.1 }
        match req.form_prompt with
        | none =>
            let st2 := { st1 with
              records := st1.records.map (fun r => if r.id == id then step1.2 else r) }
            ({ status := 200, body := .jsonRecord step1.2.to_dict }, st2)
        | some p =>
            match ocr step1.2.image_path p with
            | none => ({ status := 500, body := .htmlError }, st1)
            | some result =>
                let updated := { step1.2 with text_result := some result }
                let st2 := { st1 with
                  records := st1.records.map (fun r => if r.id == id then updated else r) }
                ({ status := 200, body := .jsonRecord updated.to_dict }, st2)

/-- `DELETE /api/images/<id>` (`delete_image`): **not** jwt-guarded
(the decorator is absent in the source); 404 when the id is absent;
otherwise removes the blob if it exists, deletes the row, commits, and
returns 204 with an empty body. -/
def delete_image (id : Nat) (_tokenValid : Bool) (st : AppState) : Response × AppState :=
  match st.findRecord id with
  | none => ({ status := 404, body := .htmlError }, st)
  | some image =>
      ({ status := 204, body := .empty },
       { st with blobs := blobRemove st.blobs image.image_path
                 records := st.records.filter (fun r => !(r.id == id)) })

/-- Well-formed persistent state: every row's id is below the
autoincrement counter, and primary keys are unique. -/
def AppState.wf (st : AppState) : Prop :=
  (∀ r ∈ st.records, r.id < st.nextId) ∧ (st.records.map ImageRecord.id).Nodup

example : secure_filename "receipt.png" = "receipt.png" := by decide
example : os_path_join UPLOAD_FOLDER "receipt.png" = "uploads/receipt.png" := by decide

/-! ## Helper lemmas about the Blob Store and Record Store -/

theorem blobGet_blobSet_self (m : List (String × List Nat)) (k : String) (v : List Nat) :
    blobGet (blobSet m k v) k = some v := by
  induction m with
  | nil => simp [blobSet, blobGet]
  | cons hd tl ih =>
      obtain ⟨k', v'⟩ := hd
      by_cases h : k' = k
      · simp [blobSet, blobGet, h]
      · simp [blobSet, blobGet, h, ih]

theorem blobGet_blobRemove_self (m : List (String × List Nat)) (k : String) :
    blobGet (blobRemove m k) k = none := by
  induction m with
  | nil => simp [blobRemove, blobGet]
  | cons hd tl ih =>
      obtain ⟨k', v'⟩ := hd
      by_cases h : k' = k
      · simp [blobRemove, h, ih]
      · simp [blobRemove, blobGet, h, ih]

theorem find?_filter_out (l : List ImageRecord) (id : Nat) :
    (l.filter (fun r => !(r.id == id))).find? (fun r => r.id == id) = none := by
  induction l with
  | nil => simp
  | cons hd tl ih =>
      by_cases h : hd.id = id
      · simp [List.filter_cons, h, ih]
      · simp [List.filter_cons, List.find?_cons, h, ih]

theorem find?_rec_id {l : List ImageRecord} {id : Nat} {rec : ImageRecord}
    (h : l.find? (fun r => r.id == id) = some rec) : rec.id = id := by
  have := List.find?_some h
  simpa using this

theorem find?_append_fresh {l : List ImageRecord} {n : Nat} (rec : ImageRecord)
    (hlt : ∀ r ∈ l, r.id < n) (hid : rec.id = n) :
    (l ++ [rec]).find? (fun r => r.id == n) = some rec := by
  induction l with
  | nil => simp [List.find?, hid]
  | cons hd tl ih =>
      have hhd : hd.id ≠ n := Nat.ne_of_lt (hlt hd (by simp))
      have htl : ∀ r ∈ tl, r.id < n := fun r hr => hlt r (by simp [hr])
      simpa [List.cons_append, List.find?_cons, hhd] using ih htl

theorem map_id_of_fixed {l : List ImageRecord} {f : ImageRecord → ImageRecord}
    (h : ∀ r ∈ l, f r = r) : l.map f = l := by
  induction l with
  | nil => simp
  | cons hd tl ih =>
      simp only [List.map_cons, h hd (by simp)]
      rw [ih (fun r hr => h r (by simp [hr]))]

theorem map_replace_self {l : List ImageRecord} {id : Nat} {rec : ImageRecord}
    (hfind : l.find? (fun r => r.id == id) = some rec)
    (hnodup : (l.map ImageRecord.id).Nodup) :
    l.map (fun r => if r.id == id then rec else r) = l := by
  induction l with
  | nil => simp at hfind
  | cons hd tl ih =>
      simp only [List.map_cons, List.nodup_cons] at hnodup
      by_cases h : hd.id = id
      · rw [List.find?_cons_of_pos _ (by simp [h])] at hfind
        have hrec : rec = hd := by injection hfind with h2; exact h2.symm
        refine map_id_of_fixed ?_
        intro r hr
        rcases List.mem_cons.mp hr with hr | hr
        · subst hr; simp [h, hrec]
        · have hne : r.id ≠ id := by
            intro heq
            exact hnodup.1 (h ▸ heq ▸ List.mem_map.mpr ⟨r, hr, rfl⟩)
          simp [hne]
      · rw [List.find?_cons_of_neg _ (by simp [h])] at hfind
        simp only [List.map_cons]
        rw [ih hfind hnodup.2]
        simp [h]

theorem mem_map_replace_of_ne {l : List ImageRecord} {id : Nat} {upd r : ImageRecord}
    (hr : r ∈ l) (hne : r.id ≠ id) :
    r ∈ l.map (fun s => if s.id == id then upd else s) := by
  refine List.mem_map.mpr ⟨r, hr, ?_⟩
  simp [hne]

theorem find?_map_replace {l : List ImageRecord} {id : Nat} {rec upd : ImageRecord}
    (hfind : l.find? (fun r => r.id == id) = some rec) (hupd : upd.id = id) :
    (l.map (fun r => if r.id == id then upd else r)).find? (fun r => r.id == id) = some upd := by
  induction l with
  | nil => simp at hfind
  | cons hd tl ih =>
      by_cases h : hd.id = id
      · simp [List.find?_cons, List.map_cons, h, hupd]
      · rw [List.find?_cons_of_neg _ (by simp [h])] at hfind
        simpa [List.map_cons, List.find?_cons, h] using ih hfind

/-! ## Claim theorems -/

/-- C1: for every create request with a valid token, a non-empty image
file and a prompt, when the OCR adapter call on the stored path
succeeds with text `t`, `create_image` returns 201 with a record whose
`text_result` equals exactly `t` and whose `image_path` is the upload
folder joined with the sanitized filename, and that path holds the
bytes just written in the Blob Store. -/
theorem create_success_returns_record
    (ocr : String → String → Option String) (now : Nat) (req : CreateRequest)
    (st : AppState) (fname : String) (bytes : List Nat) (p t : String)
    (htok : req.tokenValid = true)
    (hfile : req.files_image = some (fname, bytes))
    (hfname : fname ≠ "")
    (hprompt : req.form_prompt = some p)
    (hocr : ocr (os_path_join UPLOAD_FOLDER (secure_filename fname)) p = some t) :
    (create_image ocr now req st).1.status = 201 ∧
    (create_image ocr now req st).1.body = RespBody.jsonRecord
      { id := st.nextId
        image_path := os_path_join UPLOAD_FOLDER (secure_filename fname)
        text_result := some t
        created_at := now } ∧
    blobGet (create_image ocr now req st).2.blobs
      (os_path_join UPLOAD_FOLDER (secure_filename fname)) = some bytes := by
  simp [create_image, htok, hfile, hprompt, hfname, hocr, ImageRecord.to_dict,
    blobGet_blobSet_self]

/-- C1 witness: the concrete scenario of the spec — filename
`receipt.png`, prompt `extract total`, adapter answering
`TOTAL: $42.10` — yields 201, `image_path = "uploads/receipt.png"`,
`text_result = "TOTAL: $42.10"`, and the blob is retrievable. -/
theorem create_success_returns_record_witness :
    (create_image (fun _ _ => some "TOTAL: $42.10") 17
      { tokenValid := true, files_image := some ("receipt.png", [1, 2, 3])
        form_prompt := some "extract total" }
      { blobs := [], records := [], nextId := 1 }).1.status = 201 ∧
    (create_image (fun _ _ => some "TOTAL: $42.10") 17
      { tokenValid := true, files_image := some ("receipt.png", [1, 2, 3])
        form_prompt := some "extract total" }
      { blobs := [], records := [], nextId := 1 }).1.body = RespBody.jsonRecord
      { id := 1, image_path := "uploads/receipt.png"
        text_result := some "TOTAL: $42.10", created_at := 17 } ∧
    blobGet (create_image (fun _ _ => some "TOTAL: $42.10") 17
      { tokenValid := true, files_image := some ("receipt.png", [1, 2, 3])
        form_prompt := some "extract total" }
      { blobs := [], records := [], nextId := 1 }).2.blobs
      "uploads/receipt.png" = some [1, 2, 3] := by
  have h := create_success_returns_record (fun _ _ => some "TOTAL: $42.10") 17
    { tokenValid := true, files_image := some ("receipt.png", [1, 2, 3])
      form_prompt := some "extract total" }
    { blobs := [], records := [], nextId := 1 }
    "receipt.png" [1, 2, 3] "extract total" "TOTAL: $42.10"
    rfl rfl (by decide) rfl rfl
  have hpath : os_path_join UPLOAD_FOLDER (secure_filename "receipt.png") =
      "uploads/receipt.png" := by decide
  rw [hpath] at h
  exact h

/-- C2: a row is inserted into the Record Store only when the OCR
adapter call succeeded: after `create_image` the record list is either
unchanged (in particular whenever the adapter call fails), or the
adapter returned text `t` and exactly the new row carrying `t` was
appended. -/
theorem create_all_or_nothing
    (ocr : String → String → Option String) (now : Nat) (req : CreateRequest)
    (st : AppState) :
    (create_image ocr now req st).2.records = st.records ∨
    (∃ fname bytes t, req.files_image = some (fname, bytes) ∧ fname ≠ "" ∧
      ocr (os_path_join UPLOAD_FOLDER (secure_filename fname))
        (req.form_prompt.getD "") = some t ∧
      (create_image ocr now req st).2.records =
        st.records ++ [{ id := st.nextId
                         image_path := os_path_join UPLOAD_FOLDER (secure_filename fname)
                         text_result := some t, created_at := now }]) := by
  by_cases htok : req.tokenValid = true
  · match hfile : req.files_image with
    | none => left; simp [create_image, htok, hfile]
    | some (fname, bytes) =>
        by_cases hf : fname = ""
        · left; simp [create_image, htok, hfile, hf]
        · match hocr : ocr (os_path_join UPLOAD_FOLDER (secure_filename fname))
              (req.form_prompt.getD "") with
          | none => left; simp [create_image, htok, hfile, hf, hocr]
          | some t =>
              right
              exact ⟨fname, bytes, t, rfl, hf, hocr,
                by simp [create_image, htok, hfile, hf, hocr]⟩

  · left
    have : req.tokenValid = false := by
      cases h : req.tokenValid
      · rfl
      · exact absurd h htok
    simp [create_image, this]

/-- C3: a create request with a valid token but no image file part, or
an image file with an empty filename, fails with status 400 and a JSON
validation error, and leaves the whole state (Blob Store and Record
Store) unchanged. -/
theorem create_validation_error
    (ocr : String → String → Option String) (now : Nat) (req : CreateRequest)
    (st : AppState)
    (htok : req.tokenValid = true)
    (hbad : req.files_image = none ∨ ∃ bytes, req.files_image = some ("", bytes)) :
    (create_image ocr now req st).1.status = 400 ∧
    (∃ msg, (create_image ocr now req st).1.body = RespBody.jsonError msg) ∧
    (create_image ocr now req st).2 = st := by
  rcases hbad with hnone | ⟨bytes, hempty⟩
  · simp [create_image, htok, hnone]
  · simp [create_image, htok, hempty]

/-- C3 witness: a request with a valid token and no file part gives
400 and an unchanged state; so does an empty filename. -/
theorem create_validation_error_witness :
    ((create_image (fun _ _ => some "x") 0
        { tokenValid := true, files_image := none, form_prompt := none }
        { blobs := [], records := [], nextId := 1 }).1.status = 400 ∧
      (∃ msg, (create_image (fun _ _ => some "x") 0
        { tokenValid := true, files_image := none, form_prompt := none }
        { blobs := [], records := [], nextId := 1 }).1.body = RespBody.jsonError msg) ∧
      (create_image (fun _ _ => some "x") 0
        { tokenValid := true, files_image := none, form_prompt := none }
        { blobs := [], records := [], nextId := 1 }).2 =
        { blobs := [], records := [], nextId := 1 }) ∧
    ((create_image (fun _ _ => some "x") 0
        { tokenValid := true, files_image := some ("", [4]), form_prompt := none }
        { blobs := [], records := [], nextId := 1 }).1.status = 400 ∧
      (∃ msg, (create_image (fun _ _ => some "x") 0
        { tokenValid := true, files_image := some ("", [4]), form_prompt := none }
        { blobs := [], records := [], nextId := 1 }).1.body = RespBody.jsonError msg) ∧
      (create_image (fun _ _ => some "x") 0
        { tokenValid := true, files_image := some ("", [4]), form_prompt := none }
        { blobs := [], records := [], nextId := 1 }).2 =
        { blobs := [], records := [], nextId := 1 }) := by
  constructor
  · exact create_validation_error _ 0 _ _ rfl (Or.inl rfl)
  · exact create_validation_error _ 0 _ _ rfl (Or.inr ⟨[4], rfl⟩)

/-- C4 counterexample: update of record 1 with a new image `new.png`
and a prompt, adapter failing.  The claim says the record's
`image_path` replacement is durable; in the code `db.session.commit()`
is only reached after the OCR call, so the uncommitted attribute change
is rolled back: the stored row still has the old path, not
`uploads/new.png`. -/
theorem update_image_swap_not_durable_cex :
    ((update_image (fun _ _ => none) 1
      { tokenValid := true, files_image := some ("new.png", [2]), form_prompt := some "p" }
      { blobs := [("uploads/old.png", [1])]
        records := [{ id := 1, image_path := "uploads/old.png"
                      text_result := some "old", created_at := 5 }]
        nextId := 2 }).2.findRecord 1).map ImageRecord.image_path =
      some "uploads/old.png" ∧
    ((update_image (fun _ _ => none) 1
      { tokenValid := true, files_image := some ("new.png", [2]), form_prompt := some "p" }
      { blobs := [("uploads/old.png", [1])]
        records := [{ id := 1, image_path := "uploads/old.png"
                      text_result := some "old", created_at := 5 }]
        nextId := 2 }).2.findRecord 1).map ImageRecord.image_path ≠
      some "uploads/new.png" := by
  decide

/-- C4 amended: when an update on an existing record supplies a new
image and a prompt and the OCR adapter call fails, the **blob** write
is durable (the new bytes sit in the Blob Store at the new path), but
the record's `image_path` replacement is **not**: the uncommitted row
change is rolled back, so the Record Store is unchanged and the request
fails with 500. -/
theorem update_blob_durable_record_rolled_back
    (ocr : String → String → Option String) (id : Nat) (req : UpdateRequest)
    (st : AppState) (rec : ImageRecord) (fname : String) (bytes : List Nat) (p : String)
    (htok : req.tokenValid = true)
    (hfind : st.findRecord id = some rec)
    (hfile : req.files_image = some (fname, bytes))
    (hprompt : req.form_prompt = some p)
    (hocr : ocr (os_path_join UPLOAD_FOLDER (secure_filename fname)) p = none) :
    (update_image ocr id req st).1.status = 500 ∧
    blobGet (update_image ocr id req st).2.blobs
      (os_path_join UPLOAD_FOLDER (secure_filename fname)) = some bytes ∧
    (update_image ocr id req st).2.records = st.records := by
  simp [update_image, htok, hfind, hfile, hprompt, hocr, blobGet_blobSet_self]

/-- C4 amended witness: the concrete roll-back scenario. -/
theorem update_blob_durable_record_rolled_back_witness :
    (update_image (fun _ _ => none) 1
      { tokenValid := true, files_image := some ("new.png", [2]), form_prompt := some "p" }
      { blobs := [("uploads/old.png", [1])]
        records := [{ id := 1, image_path := "uploads/old.png"
                      text_result := some "old", created_at := 5 }]
        nextId := 2 }).1.status = 500 ∧
    blobGet (update_image (fun _ _ => none) 1
      { tokenValid := true, files_image := some ("new.png", [2]), form_prompt := some "p" }
      { blobs := [("uploads/old.png", [1])]
        records := [{ id := 1, image_path := "uploads/old.png"
                      text_result := some "old", created_at := 5 }]
        nextId := 2 }).2.blobs "uploads/new.png" = some [2] ∧
    (update_image (fun _ _ => none) 1
      { tokenValid := true, files_image := some ("new.png", [2]), form_prompt := some "p" }
      { blobs := [("uploads/old.png", [1])]
        records := [{ id := 1, image_path := "uploads/old.png"
                      text_result := some "old", created_at := 5 }]
        nextId := 2 }).2.records =
      [{ id := 1, image_path := "uploads/old.png"
         text_result := some "old", created_at := 5 }] := by
  have h := update_blob_durable_record_rolled_back (fun _ _ => none) 1
    { tokenValid := true, files_image := some ("new.png", [2]), form_prompt := some "p" }
    { blobs := [("uploads/old.png", [1])]
      records := [{ id := 1, image_path := "uploads/old.png"
                    text_result := some "old", created_at := 5 }]
      nextId := 2 }
    { id := 1, image_path := "uploads/old.png", text_result := some "old", created_at := 5 }
    "new.png" [2] "p" rfl (by decide) rfl rfl rfl
  have hpath : os_path_join UPLOAD_FOLDER (secure_filename "new.png") =
      "uploads/new.png" := by decide
  rw [hpath] at h
  exact h

/-- C5 counterexample: an OCR adapter failure during create is surfaced
as HTTP 500 carrying Flask's default error page, whose body is **not**
JSON — contradicting the claim that every failure is translated into an
HTTP status with a JSON error body. -/
theorem adapter_failure_body_not_json_cex :
    (create_image (fun _ _ => none) 0
      { tokenValid := true, files_image := some ("receipt.png", [1])
        form_prompt := some "p" }
      { blobs := [], records := [], nextId := 1 }).1.status = 500 ∧
    ((create_image (fun _ _ => none) 0
      { tokenValid := true, files_image := some ("receipt.png", [1])
        form_prompt := some "p" }
      { blobs := [], records := [], nextId := 1 }).1.body).isJson = false := by
  decide

/-- C5 amended: every failure is surfaced with an HTTP error status
distinguishable from success and none is swallowed — an adapter failure
yields 500 and never a silently defaulted `text_result` (no row is
inserted or changed) — but adapter failures carry the framework's
non-JSON error page; only validation and authentication failures carry
JSON error bodies. -/
theorem failures_surfaced_amended
    (ocr : String → String → Option String) (now : Nat)
    (req1 req2 : CreateRequest) (ureq : UpdateRequest)
    (st : AppState) (rec : ImageRecord) (id : Nat)
    (fname : String) (bytes : List Nat) (p q : String)
    (h1tok : req1.tokenValid = true)
    (h1file : req1.files_image = some (fname, bytes))
    (h1fname : fname ≠ "")
    (h1prompt : req1.form_prompt = some p)
    (h1ocr : ocr (os_path_join UPLOAD_FOLDER (secure_filename fname)) p = none)
    (h2tok : req2.tokenValid = true)
    (h2file : req2.files_image = none)
    (h3tok : ureq.tokenValid = true)
    (h3find : st.findRecord id = some rec)
    (h3file : ureq.files_image = none)
    (h3prompt : ureq.form_prompt = some q)
    (h3ocr : ocr rec.image_path q = none) :
    ((create_image ocr now req1 st).1.status = 500 ∧
      (create_image ocr now req1 st).1.body = RespBody.htmlError ∧
      (create_image ocr now req1 st).2.records = st.records) ∧
    ((create_image ocr now req2 st).1.status = 400 ∧
      ((create_image ocr now req2 st).1.body).isJson = true) ∧
    ((update_image ocr id ureq st).1.status = 500 ∧
      (update_image ocr id ureq st).2 = st) ∧
    ((create_image ocr now { req1 with tokenValid := false } st).1.status = 401 ∧
      ((create_image ocr now { req1 with tokenValid := false } st).1.body).isJson = true) := by
  refine ⟨?_, ?_, ?_, ?_⟩
  · simp [create_image, h1tok, h1file, h1prompt, h1fname, h1ocr]
  · simp [create_image, h2tok, h2file, RespBody.isJson]
  · simp [update_image, h3tok, h3find, h3file, h3prompt, h3ocr]
  · simp [create_image, jwtReject, RespBody.isJson]

/-- C5 amended witness: concrete failing create (adapter down), create
with no file, update with adapter down, and unauthenticated create. -/
theorem failures_surfaced_amended_witness :
    ((create_image (fun _ _ => none) 0
        { tokenValid := true, files_image := some ("receipt.png", [1])
          form_prompt := some "p" }
        { blobs := [("uploads/a.png", [9])]
          records := [{ id := 1, image_path := "uploads/a.png"
                        text_result := none, created_at := 3 }]
          nextId := 2 }).1.status = 500 ∧
      (create_image (fun _ _ => none) 0
        { tokenValid := true, files_image := some ("receipt.png", [1])
          form_prompt := some "p" }
        { blobs := [("uploads/a.png", [9])]
          records := [{ id := 1, image_path := "uploads/a.png"
                        text_result := none, created_at := 3 }]
          nextId := 2 }).1.body = RespBody.htmlError ∧
      (create_image (fun _ _ => none) 0
        { tokenValid := true, files_image := some ("receipt.png", [1])
          form_prompt := some "p" }
        { blobs := [("uploads/a.png", [9])]
          records := [{ id := 1, image_path := "uploads/a.png"
                        text_result := none, created_at := 3 }]
          nextId := 2 }).2.records =
        [{ id := 1, image_path := "uploads/a.png"
           text_result := none, created_at := 3 }]) ∧
    ((create_image (fun _ _ => none) 0
        { tokenValid := true, files_image := none, form_prompt := none }
        { blobs := [("uploads/a.png", [9])]
          records := [{ id := 1, image_path := "uploads/a.png"
                        text_result := none, created_at := 3 }]
          nextId := 2 }).1.status = 400 ∧
      ((create_image (fun _ _ => none) 0
        { tokenValid := true, files_image := none, form_prompt := none }
        { blobs := [("uploads/a.png", [9])]
          records := [{ id := 1, image_path := "uploads/a.png"
                        text_result := none, created_at := 3 }]
          nextId := 2 }).1.body).isJson = true) ∧
    ((update_image (fun _ _ => none) 1
        { tokenValid := true, files_image := none, form_prompt := some "q" }
        { blobs := [("uploads/a.png", [9])]
          records := [{ id := 1, image_path := "uploads/a.png"
                        text_result := none, created_at := 3 }]
          nextId := 2 }).1.status = 500 ∧
      (update_image (fun _ _ => none) 1
        { tokenValid := true, files_image := none, form_prompt := some "q" }
        { blobs := [("uploads/a.png", [9])]
          records := [{ id := 1, image_path := "uploads/a.png"
                        text_result := none, created_at := 3 }]
          nextId := 2 }).2 =
        { blobs := [("uploads/a.png", [9])]
          records := [{ id := 1, image_path := "uploads/a.png"
                        text_result := none, created_at := 3 }]
          nextId := 2 }) ∧
    ((create_image (fun _ _ => none) 0
        { tokenValid := false, files_image := some ("receipt.png", [1])
          form_prompt := some "p" }
        { blobs := [("uploads/a.png", [9])]
          records := [{ id := 1, image_path := "uploads/a.png"
                        text_result := none, created_at := 3 }]
          nextId := 2 }).1.status = 401 ∧
      ((create_image (fun _ _ => none) 0
        { tokenValid := false, files_image := some ("receipt.png", [1])
          form_prompt := some "p" }
        { blobs := [("uploads/a.png", [9])]
          records := [{ id := 1, image_path := "uploads/a.png"
                        text_result := none, created_at := 3 }]
          nextId := 2 }).1.body).isJson = true) := by
  exact failures_surfaced_amended (fun _ _ => none) 0
    { tokenValid := true, files_image := some ("receipt.png", [1]), form_prompt := some "p" }
    { tokenValid := true, files_image := none, form_prompt := none }
    { tokenValid := true, files_image := none, form_prompt := some "q" }
    { blobs := [("uploads/a.png", [9])]
      records := [{ id := 1, image_path := "uploads/a.png"
                    text_result := none, created_at := 3 }]
      nextId := 2 }
    { id := 1, image_path := "uploads/a.png", text_result := none, created_at := 3 }
    1 "receipt.png" [1] "p" "q"
    rfl rfl (by decide) rfl rfl rfl rfl rfl (by decide) rfl rfl rfl

/-- C6: an update on an existing record that supplies a prompt but no
new image, when the OCR adapter call succeeds with text `t`, changes
only `text_result`: the response is 200 with the record carrying the
same `id`, `image_path` and `created_at` and `text_result = t`; the
Blob Store and the id counter are untouched, the stored row becomes the
same record with only `text_result` replaced, and every row with a
different id is preserved. -/
theorem update_prompt_only_changes_text
    (ocr : String → String → Option String) (id : Nat) (req : UpdateRequest)
    (st : AppState) (rec : ImageRecord) (p t : String)
    (htok : req.tokenValid = true)
    (hfind : st.findRecord id = some rec)
    (hfile : req.files_image = none)
    (hprompt : req.form_prompt = some p)
    (hocr : ocr rec.image_path p = some t) :
    (update_image ocr id req st).1.status = 200 ∧
    (update_image ocr id req st).1.body = RespBody.jsonRecord
      { id := rec.id, image_path := rec.image_path
        text_result := some t, created_at := rec.created_at } ∧
    (update_image ocr id req st).2.blobs = st.blobs ∧
    (update_image ocr id req st).2.nextId = st.nextId ∧
    (update_image ocr id req st).2.findRecord id =
      some { rec with text_result := some t } ∧
    (∀ r ∈ st.records, r.id ≠ id → r ∈ (update_image ocr id req st).2.records) := by
  have hrecid : rec.id = id := find?_rec_id hfind
  refine ⟨?_, ?_, ?_, ?_, ?_, ?_⟩
  · simp [update_image, htok, hfind, hfile, hprompt, hocr]
  · simp [update_image, htok, hfind, hfile, hprompt, hocr, ImageRecord.to_dict]
  · simp [update_image, htok, hfind, hfile, hprompt, hocr]
  · simp [update_image, htok, hfind, hfile, hprompt, hocr]
  · have hfind2 : st.records.find? (fun r => r.id == id) = some rec := hfind
    simp only [update_image, AppState.findRecord, htok, hfind2, hfile, hprompt,
      hocr, Bool.not_true, Bool.false_eq_true, if_false]
    exact find?_map_replace hfind2 hrecid
  · intro r hr hne
    have hfind2 : st.records.find? (fun r => r.id == id) = some rec := hfind
    simp only [update_image, AppState.findRecord, htok, hfind2, hfile, hprompt,
      hocr, Bool.not_true, Bool.false_eq_true, if_false]
    exact mem_map_replace_of_ne hr hne

/-- C6 witness: prompt-only update of record 1 with a second record 2
untouched. -/
theorem update_prompt_only_changes_text_witness :
    (update_image (fun _ pr => some (pr ++ "!")) 1
      { tokenValid := true, files_image := none, form_prompt := some "read" }
      { blobs := [("uploads/a.png", [9])]
        records := [{ id := 1, image_path := "uploads/a.png"
                      text_result := some "old", created_at := 3 },
                    { id := 2, image_path := "uploads/b.png"
                      text_result := none, created_at := 4 }]
        nextId := 3 }).1.status = 200 ∧
    (update_image (fun _ pr => some (pr ++ "!")) 1
      { tokenValid := true, files_image := none, form_prompt := some "read" }
      { blobs := [("uploads/a.png", [9])]
        records := [{ id := 1, image_path := "uploads/a.png"
                      text_result := some "old", created_at := 3 },
                    { id := 2, image_path := "uploads/b.png"
                      text_result := none, created_at := 4 }]
        nextId := 3 }).1.body = RespBody.jsonRecord
      { id := 1, image_path := "uploads/a.png"
        text_result := some "read!", created_at := 3 } ∧
    (update_image (fun _ pr => some (pr ++ "!")) 1
      { tokenValid := true, files_image := none, form_prompt := some "read" }
      { blobs := [("uploads/a.png", [9])]
        records := [{ id := 1, image_path := "uploads/a.png"
                      text_result := some "old", created_at := 3 },
                    { id := 2, image_path := "uploads/b.png"
                      text_result := none, created_at := 4 }]
        nextId := 3 }).2.findRecord 1 =
      some { id := 1, image_path := "uploads/a.png"
             text_result := some "read!", created_at := 3 } ∧
    { id := 2, image_path := "uploads/b.png"
      text_result := none, created_at := 4 : ImageRecord } ∈
      (update_image (fun _ pr => some (pr ++ "!")) 1
      { tokenValid := true, files_image := none, form_prompt := some "read" }
      { blobs := [("uploads/a.png", [9])]
        records := [{ id := 1, image_path := "uploads/a.png"
                      text_result := some "old", created_at := 3 },
                    { id := 2, image_path := "uploads/b.png"
                      text_result := none, created_at := 4 }]
        nextId := 3 }).2.records := by
  have h := update_prompt_only_changes_text (fun _ pr => some (pr ++ "!")) 1
    { tokenValid := true, files_image := none, form_prompt := some "read" }
    { blobs := [("uploads/a.png", [9])]
      records := [{ id := 1, image_path := "uploads/a.png"
                    text_result := some "old", created_at := 3 },
                  { id := 2, image_path := "uploads/b.png"
                    text_result := none, created_at := 4 }]
      nextId := 3 }
    { id := 1, image_path := "uploads/a.png", text_result := some "old", created_at := 3 }
    "read" "read!" rfl (by decide) rfl rfl rfl
  refine ⟨h.1, h.2.1, h.2.2.2.2.1, ?_⟩
  exact h.2.2.2.2.2 _ (by simp) (by decide)

/-- C7: deleting an existing record returns 204 with an empty body,
removes the underlying blob (the removal tolerating an already-absent
blob), and deletes the row, after which a get of that id fails with
404 and the id no longer resolves; deleting an absent id fails with
404 and changes nothing. -/
theorem delete_then_get_not_found
    (id : Nat) (tv : Bool) (st : AppState) :
    (∀ rec, st.findRecord id = some rec →
      (delete_image id tv st).1.status = 204 ∧
      (delete_image id tv st).1.body = RespBody.empty ∧
      blobGet (delete_image id tv st).2.blobs rec.image_path = none ∧
      (delete_image id tv st).2.findRecord id = none ∧
      (get_image true id (delete_image id tv st).2).1.status = 404) ∧
    (st.findRecord id = none →
      (delete_image id tv st).1.status = 404 ∧ (delete_image id tv st).2 = st) := by
  constructor
  · intro rec hfind
    have hblobs : (delete_image id tv st).2.blobs = blobRemove st.blobs rec.image_path := by
      simp [delete_image, hfind]
    have hrecs : (delete_image id tv st).2.findRecord id = none := by
      have hfind2 : st.records.find? (fun r => r.id == id) = some rec := hfind
      simp only [delete_image, AppState.findRecord, hfind2]
      exact find?_filter_out st.records id
    refine ⟨by simp [delete_image, hfind], by simp [delete_image, hfind], ?_, hrecs, ?_⟩
    · rw [hblobs]; exact blobGet_blobRemove_self st.blobs rec.image_path
    · simp [get_image, hrecs]
  · intro hfind
    simp [delete_image, hfind]

/-- C7 witness: delete record 1 (blob present), then get it; and delete
an absent id 9. -/
theorem delete_then_get_not_found_witness :
    ((delete_image 1 true
        { blobs := [("uploads/a.png", [9])]
          records := [{ id := 1, image_path := "uploads/a.png"
                        text_result := some "t", created_at := 3 }]
          nextId := 2 }).1.status = 204 ∧
      blobGet (delete_image 1 true
        { blobs := [("uploads/a.png", [9])]
          records := [{ id := 1, image_path := "uploads/a.png"
                        text_result := some "t", created_at := 3 }]
          nextId := 2 }).2.blobs "uploads/a.png" = none ∧
      (get_image true 1 (delete_image 1 true
        { blobs := [("uploads/a.png", [9])]
          records := [{ id := 1, image_path := "uploads/a.png"
                        text_result := some "t", created_at := 3 }]
          nextId := 2 }).2).1.status = 404) ∧
    ((delete_image 9 true
        { blobs := [("uploads/a.png", [9])]
          records := [{ id := 1, image_path := "uploads/a.png"
                        text_result := some "t", created_at := 3 }]
          nextId := 2 }).1.status = 404) := by
  have h := delete_then_get_not_found 1 true
    { blobs := [("uploads/a.png", [9])]
      records := [{ id := 1, image_path := "uploads/a.png"
                    text_result := some "t", created_at := 3 }]
      nextId := 2 }
  have h1 := h.1 { id := 1, image_path := "uploads/a.png"
                   text_result := some "t", created_at := 3 } (by decide)
  have h2 := delete_then_get_not_found 9 true
    { blobs := [("uploads/a.png", [9])]
      records := [{ id := 1, image_path := "uploads/a.png"
                    text_result := some "t", created_at := 3 }]
      nextId := 2 }
  exact ⟨⟨h1.1, h1.2.2.1, h1.2.2.2.2⟩, (h2.2 (by decide)).1⟩

/-- C8: after a successful create (201 with some record object `d`), a
get on `d.id` against the resulting state returns 200 with exactly the
same record object — the round-trip of the spec. -/
theorem get_after_create_roundtrip
    (ocr : String → String → Option String) (now : Nat) (req : CreateRequest)
    (st : AppState) (fname : String) (bytes : List Nat) (t : String)
    (hwf : st.wf)
    (htok : req.tokenValid = true)
    (hfile : req.files_image = some (fname, bytes))
    (hfname : fname ≠ "")
    (hocr : ocr (os_path_join UPLOAD_FOLDER (secure_filename fname))
      (req.form_prompt.getD "") = some t) :
    (create_image ocr now req st).1.status = 201 ∧
    ∃ d, (create_image ocr now req st).1.body = RespBody.jsonRecord d ∧
      (get_image true d.id (create_image ocr now req st).2).1 =
        { status := 200, body := RespBody.jsonRecord d } := by
  refine ⟨by simp [create_image, htok, hfile, hfname, hocr], ?_⟩
  refine ⟨{ id := st.nextId
            image_path := os_path_join UPLOAD_FOLDER (secure_filename fname)
            text_result := some t, created_at := now }, ?_, ?_⟩
  · simp [create_image, htok, hfile, hfname, hocr, ImageRecord.to_dict]
  · have hfind : (create_image ocr now req st).2.findRecord st.nextId =
        some { id := st.nextId
               image_path := os_path_join UPLOAD_FOLDER (secure_filename fname)
               text_result := some t, created_at := now } := by
      simp only [create_image, htok, hfile, hfname, hocr, Bool.not_true,
        Bool.false_eq_true, if_false, if_neg hfname, AppState.findRecord]
      exact find?_append_fresh _ hwf.1 rfl
    simp [get_image, hfind, ImageRecord.to_dict]

/-- C8 witness: create `receipt.png` in a state already holding record
1, then get the returned id 2. -/
theorem get_after_create_roundtrip_witness :
    (create_image (fun _ _ => some "TOTAL: $42.10") 17
      { tokenValid := true, files_image := some ("receipt.png", [1, 2, 3])
        form_prompt := some "extract total" }
      { blobs := [("uploads/a.png", [9])]
        records := [{ id := 1, image_path := "uploads/a.png"
                      text_result := none, created_at := 3 }]
        nextId := 2 }).1.status = 201 ∧
    ∃ d, (create_image (fun _ _ => some "TOTAL: $42.10") 17
      { tokenValid := true, files_image := some ("receipt.png", [1, 2, 3])
        form_prompt := some "extract total" }
      { blobs := [("uploads/a.png", [9])]
        records := [{ id := 1, image_path := "uploads/a.png"
                      text_result := none, created_at := 3 }]
        nextId := 2 }).1.body = RespBody.jsonRecord d ∧
      (get_image true d.id (create_image (fun _ _ => some "TOTAL: $42.10") 17
        { tokenValid := true, files_image := some ("receipt.png", [1, 2, 3])
          form_prompt := some "extract total" }
        { blobs := [("uploads/a.png", [9])]
          records := [{ id := 1, image_path := "uploads/a.png"
                        text_result := none, created_at := 3 }]
          nextId := 2 }).2).1 =
        { status := 200, body := RespBody.jsonRecord d } := by
  exact get_after_create_roundtrip (fun _ _ => some "TOTAL: $42.10") 17
    { tokenValid := true, files_image := some ("receipt.png", [1, 2, 3])
      form_prompt := some "extract total" }
    { blobs := [("uploads/a.png", [9])]
      records := [{ id := 1, image_path := "uploads/a.png"
                    text_result := none, created_at := 3 }]
      nextId := 2 }
    "receipt.png" [1, 2, 3] "TOTAL: $42.10"
    ⟨by decide, by decide⟩ rfl rfl (by decide) rfl

/-- C9: `delete_image` carries no authentication gate — its result is
the same whatever the credential validity of the request — while the
list, create, get and update handlers all reject a request whose bearer
token is missing or invalid with the 401 JWT rejection. -/
theorem delete_unguarded_others_jwt_guarded
    (id : Nat) (st : AppState) (ocr : String → String → Option String) (now : Nat)
    (req : CreateRequest) (ureq : UpdateRequest) (tv tv2 : Bool) :
    delete_image id tv st = delete_image id tv2 st ∧
    (get_images false st).1 = jwtReject ∧
    (create_image ocr now { req with tokenValid := false } st).1 = jwtReject ∧
    (get_image false id st).1 = jwtReject ∧
    (update_image ocr id { ureq with tokenValid := false } st).1 = jwtReject ∧
    (get_images false st).2 = st ∧
    (create_image ocr now { req with tokenValid := false } st).2 = st ∧
    (get_image false id st).2 = st ∧
    (update_image ocr id { ureq with tokenValid := false } st).2 = st := by
  refine ⟨rfl, ?_, ?_, ?_, ?_, ?_, ?_, ?_, ?_⟩ <;>
    simp [get_images, create_image, get_image, update_image]

/-- C10: an update on an existing record with neither an image file
part nor a prompt field returns 200 with the record unchanged and
leaves the whole state untouched, and its outcome does not depend on
the OCR adapter at all (no adapter call, no blob write). -/
theorem update_without_fields_identity
    (ocr ocr2 : String → String → Option String) (id : Nat) (req : UpdateRequest)
    (st : AppState) (rec : ImageRecord)
    (hwf : st.wf)
    (htok : req.tokenValid = true)
    (hfile : req.files_image = none)
    (hprompt : req.form_prompt = none)
    (hfind : st.findRecord id = some rec) :
    update_image ocr id req st =
      ({ status := 200, body := RespBody.jsonRecord rec.to_dict }, st) ∧
    update_image ocr id req st = update_image ocr2 id req st := by
  have hfind2 : st.records.find? (fun r => r.id == id) = some rec := hfind
  have hmap := map_replace_self hfind2 hwf.2
  constructor
  · simp only [update_image, AppState.findRecord, htok, hfind2, hfile, hprompt,
      Bool.not_true, Bool.false_eq_true, if_false]
    rw [hmap]
  · simp [update_image, AppState.findRecord, htok, hfind2, hfile, hprompt]

/-- C10 witness: a field-less update of record 1 in a two-record state
is the identity and ignores the adapter. -/
theorem update_without_fields_identity_witness :
    update_image (fun _ _ => none) 1
      { tokenValid := true, files_image := none, form_prompt := none }
      { blobs := [("uploads/a.png", [9])]
        records := [{ id := 1, image_path := "uploads/a.png"
                      text_result := some "old", created_at := 3 },
                    { id := 2, image_path := "uploads/b.png"
                      text_result := none, created_at := 4 }]
        nextId := 3 } =
      ({ status := 200, body := RespBody.jsonRecord
          { id := 1, image_path := "uploads/a.png"
            text_result := some "old", created_at := 3 } },
        { blobs := [("uploads/a.png", [9])]
          records := [{ id := 1, image_path := "uploads/a.png"
                        text_result := some "old", created_at := 3 },
                      { id := 2, image_path := "uploads/b.png"
                        text_result := none, created_at := 4 }]
          nextId := 3 }) ∧
    update_image (fun _ _ => none) 1
      { tokenValid := true, files_image := none, form_prompt := none }
      { blobs := [("uploads/a.png", [9])]
        records := [{ id := 1, image_path := "uploads/a.png"
                      text_result := some "old", created_at := 3 },
                    { id := 2, image_path := "uploads/b.png"
                      text_result := none, created_at := 4 }]
        nextId := 3 } =
    update_image (fun _ _ => some "other") 1
      { tokenValid := true, files_image := none, form_prompt := none }
      { blobs := [("uploads/a.png", [9])]
        records := [{ id := 1, image_path := "uploads/a.png"
                      text_result := some "old", created_at := 3 },
                    { id := 2, image_path := "uploads/b.png"
                      text_result := none, created_at := 4 }]
        nextId := 3 } := by
  exact update_without_fields_identity (fun _ _ => none) (fun _ _ => some "other") 1
    { tokenValid := true, files_image := none, form_prompt := none }
    { blobs := [("uploads/a.png", [9])]
      records := [{ id := 1, image_path := "uploads/a.png"
                    text_result := some "old", created_at := 3 },
                  { id := 2, image_path := "uploads/b.png"
                    text_result := none, created_at := 4 }]
      nextId := 3 }
    { id := 1, image_path := "uploads/a.png", text_result := some "old", created_at := 3 }
    ⟨by decide, by decide⟩ rfl rfl rfl (by decide)
